import Mathlib

/-!
Verification of the k-pullup backend core against its specification.

Each Go function referenced by the claims is shallow-embedded as an
executable Lean definition over explicit state (lists standing for the SQL
tables and the Redis cache), and the claimed properties are proved or
refuted about those definitions.  Machine integers are modelled as `Nat`
(Go's values here are non-negative and overflow-guarded); time stamps and
durations are integers (seconds); Go byte strings are `List UInt8`.
-/

namespace KPullup

/-! ## Pagination utilities (`util/pagination.go`) -/

/-- Go's `math.MaxInt` on a 64-bit platform (`int` is 64-bit). -/
def maxGoInt : Nat := 2 ^ 63 - 1

/-- The digit-accumulating loop of `parsePositiveInt`: consumes the bytes,
returning `none` when a non-digit byte appears or the accumulated value
would overflow (`n > (math.MaxInt-d)/10`). -/
def parseDigits : List Char → Nat → Option Nat
  | [], n => some n
  | c :: rest, n =>
    if c < '0' ∨ '9' < c then none
    else
      let d := c.toNat - Char.toNat '0'
      if n > (maxGoInt - d) / 10 then none
      else parseDigits rest (n * 10 + d)

/-- `util.parsePositiveInt(b, def)`: parses a `[]byte` as a positive integer,
returning `def` when the input is empty, does not start with `'1'..'9'`,
contains a non-digit, or overflows. -/
def parsePositiveInt (b : List Char) (dflt : Nat) : Nat :=
  match b with
  | [] => dflt
  | c :: _ =>
    if c < '1' ∨ '9' < c then dflt
    else
      match parseDigits b 0 with
      | some n => n
      | none => dflt

/-- `util.PaginationConfig` (the fields the embedded code reads). -/
structure PaginationConfig where
  defaultPage : Nat
  defaultPageSize : Nat
  maxPageSize : Nat := 0
  maxPage : Nat := 0
  minPage : Nat := 0

/-- `util.PaginationParams`. -/
structure PaginationParams where
  page : Nat
  pageSize : Nat
  offset : Nat
deriving DecidableEq, Repr

/-- `util.ParsePaginationParams(c, config)`: the two query arguments are the
raw bytes of `page` and `pageSize` (`[]` when absent, as `args.Peek` returns
nil).  The Go function's `error` result is mirrored by `Except`; the source
returns `nil` for the error on every path. -/
def ParsePaginationParams (cfg : PaginationConfig) (pageArg pageSizeArg : List Char) :
    Except String PaginationParams :=
  let page0 := parsePositiveInt pageArg cfg.defaultPage
  let pageSize0 := parsePositiveInt pageSizeArg cfg.defaultPageSize
  let page1 := if page0 < cfg.minPage then cfg.minPage else page0
  let page2 := if cfg.maxPage > 0 ∧ page1 > cfg.maxPage then cfg.maxPage else page1
  let pageSize1 :=
    if cfg.maxPageSize > 0 ∧ pageSize0 > cfg.maxPageSize then cfg.maxPageSize else pageSize0
  let pair :=
    if page2 > 1 ∧ pageSize1 > 0 ∧ (page2 - 1) > maxGoInt / pageSize1 then
      (cfg.defaultPage, cfg.defaultPageSize)
    else (page2, pageSize1)
  Except.ok ⟨pair.1, pair.2, (pair.1 - 1) * pair.2⟩

/-! ## Close-markers handler (`handler/marker_location_api.go`) -/

/-- The pagination configuration passed by `HandleFindCloseMarkers`. -/
def closeMarkersCfg : PaginationConfig :=
  { defaultPage := 1, defaultPageSize := 4 }

/-- The HTTP response of the close-markers endpoint that the claims read:
status code, `CurrentPage` and `TotalPages`. -/
structure CloseMarkersResponse where
  status : Nat
  currentPage : Nat
  totalPages : Nat
deriving DecidableEq, Repr

/-- `handler.HandleFindCloseMarkers` on the database path (cache miss), with
the coordinate query already bound.  `total` is the marker count returned by
`FindClosestNMarkersWithinDistance`; `dbOk` is whether that call succeeded.
Mirrors the source: the 403 distance guard, the (dead) 400 pagination branch,
`totalPages := total/pageSize` rounded up by remainder, then the two clamps
on `page`. -/
def HandleFindCloseMarkers (distance : Int) (pageArg pageSizeArg : List Char)
    (total : Nat) (dbOk : Bool) : CloseMarkersResponse :=
  if distance > 50000 then ⟨403, 0, 0⟩
  else
    match ParsePaginationParams closeMarkersCfg pageArg pageSizeArg with
    | Except.error _ => ⟨400, 0, 0⟩
    | Except.ok pg =>
      if !dbOk then ⟨500, 0, 0⟩
      else
        let pageSize := pg.pageSize
        let totalPages := total / pageSize + (if total % pageSize ≠ 0 then 1 else 0)
        let page1 := if pg.page > totalPages then totalPages else pg.page
        let page2 := if page1 < 1 then 1 else page1
        ⟨200, page2, totalPages⟩

/-- The decimal digits of `math.MaxInt` (9223372036854775807): a `page` or
`pageSize` argument for which any larger value overflows. -/
def maxIntDigits : List Char :=
  ['9', '2', '2', '3', '3', '7', '2', '0', '3', '6', '8', '5', '4', '7', '7', '5', '8', '0', '7']

/-! ## Bad-word filter (`util/badword_util.go`) -/

/-- Number of runes of a (valid-UTF-8) byte string, as `len([]rune(match))`
computes it: bytes that are not UTF-8 continuation bytes. -/
def runeCount (w : List UInt8) : Nat :=
  w.countP fun b => decide (b.toNat < 128 ∨ 192 ≤ b.toNat)

/-- The compiled alternation regex `(w1|w2|...)` applied at the current
position: the leftmost-first semantics of Go's `regexp` picks the first
alternative (in list order, empty words skipped) that matches here. -/
def findBadWord (bad : List (List UInt8)) (s : List UInt8) : Option (List UInt8) :=
  bad.find? fun w => !w.isEmpty && List.isPrefixOf w s

/-- `util.ReplaceBadWords` (compiled-pattern path): each regex match is
replaced by `len([]rune(match))` ASCII asterisks (byte 42); the scan resumes
after the match, unmatched bytes are copied through. -/
def replaceBadWords (bad : List (List UInt8)) : List UInt8 → List UInt8
  | [] => []
  | c :: rest =>
    match findBadWord bad (c :: rest) with
    | some w =>
        List.replicate (runeCount w) (42 : UInt8) ++
          replaceBadWords bad (rest.drop (w.length - 1))
    | none => c :: replaceBadWords bad rest
termination_by s => s.length
decreasing_by
  · simp only [List.length_drop, List.length_cons]
    omega
  · simp

/-! ## Story service (`service/marker_story_service.go`) -/

/-- A row of the `Stories` table (the columns the claims read). -/
structure Story where
  storyID : Nat
  markerID : Nat
  userID : Nat
  caption : List UInt8
  expiresAt : Int
deriving DecidableEq, Repr

/-- A row of the `StoryReports` table; its primary key is `(storyID, userID)`. -/
structure StoryReport where
  storyID : Nat
  userID : Nat
  reason : String
deriving DecidableEq, Repr

/-- The tagged errors of the story service: the exported sentinels plus
`errMsg` for errors built from a message string (`fmt.Errorf`). -/
inductive StoryErr where
  | storyNotFound
  | alreadyStoryPost
  | markerNotExist
  | photoFailed
  | errMsg (msg : String)
deriving DecidableEq, Repr

/-- The message `ReportStory` wraps a MySQL 1062 duplicate-key error into. -/
def dupReportMsg : String := "you have already reported this story"

/-- The substring `HandleReportStory` greps the error text for. -/
def dupEntryPat : String := "duplicate entry"

/-- `strings.Contains(s, pat)` over rune lists. -/
def strHasSub (pat : List Char) : List Char → Bool
  | [] => pat.isEmpty
  | c :: rest => List.isPrefixOf pat (c :: rest) || strHasSub pat rest

/-- `checkExistingStoryIdQuery`: does a `Stories` row with this id exist. -/
def storyExists (stories : List Story) (storyID : Nat) : Bool :=
  stories.any fun s => s.storyID == storyID

/-- `StoryService.ReportStory`: missing story is `ErrStoryNotFound`; a
duplicate `(story, user)` insert (MySQL error 1062) is wrapped into the
`dupReportMsg` error; otherwise the report row is inserted. -/
def ReportStory (stories : List Story) (reports : List StoryReport)
    (storyID userID : Nat) (reason : String) :
    Except StoryErr (List StoryReport) :=
  if !storyExists stories storyID then Except.error StoryErr.storyNotFound
  else if reports.any fun r => r.storyID == storyID && r.userID == userID then
    Except.error (StoryErr.errMsg dupReportMsg)
  else Except.ok (reports ++ [⟨storyID, userID, reason⟩])

/-- `handler.HandleReportStory`: 400 on an over-long reason, 404 for the
not-found sentinel, 409 when the error text contains `"duplicate entry"`,
500 otherwise.  Returns the HTTP status code. -/
def HandleReportStory (stories : List Story) (reports : List StoryReport)
    (storyID userID : Nat) (reason : String) : Nat :=
  if reason.utf8ByteSize > 255 then 400
  else
    match ReportStory stories reports storyID userID reason with
    | Except.ok _ => 200
    | Except.error StoryErr.storyNotFound => 404
    | Except.error (StoryErr.errMsg m) =>
        if strHasSub dupEntryPat.toList m.toList then 409 else 500
    | Except.error _ => 500

/-- `expires_at = now + 24h` (seconds). -/
def hours24 : Int := 86400

/-- `checkExistingStoryQuery`: an active (`ExpiresAt > now`) story by this
user on this marker. -/
def hasActiveStory (stories : List Story) (markerID userID : Nat) (now : Int) : Bool :=
  stories.any fun s =>
    s.markerID == markerID && s.userID == userID && decide (now < s.expiresAt)

/-- `StoryService.AddStory`: marker-existence check (`getMarkerAddressQuery`),
active-story check (`ErrAlreadyStoryPost`), then the photo pipeline (file
read, image decode, blurhash, S3 upload — abstracted into `photoOk`), then
the insert with `ExpiresAt = now + 24h`.  `markers` maps marker id to its
address; `newID` is the auto-increment id the insert returns. -/
def AddStory (markers : List (Nat × String)) (stories : List Story)
    (markerID userID : Nat) (caption : List UInt8) (now : Int) (newID : Nat)
    (photoOk : Bool) : Except StoryErr (List Story) :=
  match markers.find? (fun m => m.1 == markerID) with
  | none => Except.error StoryErr.markerNotExist
  | some _ =>
    if hasActiveStory stories markerID userID now then
      Except.error StoryErr.alreadyStoryPost
    else if !photoOk then Except.error StoryErr.photoFailed
    else Except.ok (stories ++ [⟨newID, markerID, userID, caption, now + hours24⟩])

/-- `caption[:30]` when `len(caption) > 30` — a byte-level cut. -/
def truncateCaption (raw : List UInt8) : List UInt8 :=
  if raw.length > 30 then raw.take 30 else raw

/-- `handler.HandleAddStory`: truncates the caption to 30 bytes, filters bad
words, requires a photo part (else 400), then calls `AddStory`; maps
`ErrAlreadyStoryPost` to 409, other errors to 500, success to 201.  Returns
the status code and the resulting `Stories` table. -/
def HandleAddStory (bad : List (List UInt8)) (markers : List (Nat × String))
    (stories : List Story) (markerID userID : Nat) (rawCaption : List UInt8)
    (hasPhoto : Bool) (now : Int) (newID : Nat) (photoOk : Bool) :
    Nat × List Story :=
  let caption := replaceBadWords bad (truncateCaption rawCaption)
  if !hasPhoto then (400, stories)
  else
    match AddStory markers stories markerID userID caption now newID photoOk with
    | Except.error StoryErr.alreadyStoryPost => (409, stories)
    | Except.error _ => (500, stories)
    | Except.ok stories2 => (201, stories2)

/-! ## Cached story pages and reactions
(`GetStories`, `AddReaction`, `UpdateStoryReactionInCache`) -/

/-- One element of a cached `dto.StoryResponseOneMarker` list. -/
structure StoryEntry where
  storyID : Nat
  caption : List UInt8
  expiresAt : Int
  thumbsUp : Int
  thumbsDown : Int
  userLiked : Bool
deriving DecidableEq, Repr

/-- One Redis entry under `stories:<marker>:offset:<offset>`. `ttl` is the
remaining time-to-live of the key; `decodeOk` is whether `GetCacheEntry`
succeeds on it and `setOk` whether `SetCacheEntry` on it would succeed. -/
structure CachePage where
  offset : Nat
  ttl : Int
  decodeOk : Bool
  setOk : Bool
  stories : List StoryEntry
deriving DecidableEq, Repr

/-- The three-field overwrite `stories[i].ThumbsUp/ThumbsDown/UserLiked`. -/
def patchEntry (tu td : Int) (ul : Bool) (e : StoryEntry) : StoryEntry :=
  { e with thumbsUp := tu, thumbsDown := td, userLiked := ul }

/-- The in-place patch loop of `UpdateStoryReactionInCache`: overwrite the
three reaction fields of the first entry whose `StoryID` matches (the Go
loop `break`s after it) and report whether anything was modified. -/
def patchStories (storyID : Nat) (tu td : Int) (ul : Bool) :
    List StoryEntry → List StoryEntry × Bool
  | [] => ([], false)
  | e :: rest =>
    if e.storyID == storyID then
      (patchEntry tu td ul e :: rest, true)
    else
      let r := patchStories storyID tu td ul rest
      (e :: r.1, r.2)

/-- Ten minutes, the TTL `SetCacheEntry` is called with in
`UpdateStoryReactionInCache` (`time.Minute*10`). -/
def tenMinutes : Int := 600

/-- The per-key body of the scan loop, over the pages matching
`stories:<marker>:offset:*`: an undecodable page is skipped (`continue`), a
page containing the story is re-stored with a fresh 10-minute TTL, a failing
re-store aborts with the error, an untouched page keeps its TTL. -/
def updateCachePages (storyID : Nat) (tu td : Int) (ul : Bool) :
    List CachePage → Except Unit (List CachePage)
  | [] => Except.ok []
  | p :: rest =>
    if !p.decodeOk then
      (updateCachePages storyID tu td ul rest).map fun r => p :: r
    else
      let pr := patchStories storyID tu td ul p.stories
      if pr.2 then
        if !p.setOk then Except.error ()
        else
          (updateCachePages storyID tu td ul rest).map fun r =>
            { p with stories := pr.1, ttl := tenMinutes } :: r
      else (updateCachePages storyID tu td ul rest).map fun r => p :: r

/-- `StoryService.UpdateStoryReactionInCache`: a failing Redis `SCAN` is
returned as the error (`scanOk = false`); otherwise every page matching the
marker's pattern is visited by `updateCachePages`. -/
def UpdateStoryReactionInCache (scanOk : Bool) (pages : List CachePage)
    (storyID : Nat) (tu td : Int) (ul : Bool) : Except Unit (List CachePage) :=
  if !scanOk then Except.error ()
  else updateCachePages storyID tu td ul pages

/-- Outcome of a reaction request: whether the DB transaction committed, and
the value the service call returned. -/
structure ReactionOutcome where
  committed : Bool
  result : Except Unit (List CachePage)

/-- `StoryService.AddReaction` / `RemoveReaction`: the transactional DB work
(existence check, reaction upsert or delete, `refetchActualReactionCounts`)
is summarized by `dbOk` and the re-aggregated `(tu, td, ul)`.  The deferred
commit fires because `err` is still nil when the function returns the value
of `UpdateStoryReactionInCache`, so the transaction commits even when the
cache update errors. -/
def AddReaction (dbOk : Bool) (scanOk : Bool) (pages : List CachePage)
    (storyID : Nat) (tu td : Int) (ul : Bool) : ReactionOutcome :=
  if !dbOk then ⟨false, Except.error ()⟩
  else ⟨true, UpdateStoryReactionInCache scanOk pages storyID tu td ul⟩

/-- `handler.HandleAddReaction` after body parsing: 400 for an unknown
reaction type, 500 when the service errors, 200 otherwise. -/
def HandleAddReaction (reactionType : String) (dbOk scanOk : Bool)
    (pages : List CachePage) (storyID : Nat) (tu td : Int) (ul : Bool) : Nat :=
  if reactionType ≠ "thumbsup" ∧ reactionType ≠ "thumbsdown" then 400
  else
    match (AddReaction dbOk scanOk pages storyID tu td ul).result with
    | Except.ok _ => 200
    | Except.error _ => 500

/-- Five minutes (`5 * time.Minute`), the fallback/empty-page TTL. -/
def fiveMinutes : Int := 300

/-- The TTL computation of `GetStories` on a DB read: seed `earliest` with
the first entry's `ExpiresAt`, fold the `Before` comparison over the page,
take `duration = earliest - now`, and fall back to five minutes only when
that is non-positive; an empty page is cached five minutes. -/
def storiesCacheTTL (now : Int) (stories : List StoryEntry) : Int :=
  match stories with
  | [] => fiveMinutes
  | s0 :: _ =>
    let earliest := stories.foldl
      (fun e s => if s.expiresAt < e then s.expiresAt else e) s0.expiresAt
    let duration := earliest - now
    if duration ≤ 0 then fiveMinutes else duration

/-- `StoryService.GetStories`: on a cache hit the cached page is returned and
nothing is written; on a miss the DB page is returned and written back with
`storiesCacheTTL`.  The second component is the cache write `(ttl, value)`. -/
def GetStories (cached : Option (List StoryEntry)) (dbStories : List StoryEntry)
    (now : Int) : List StoryEntry × Option (Int × List StoryEntry) :=
  match cached with
  | some s => (s, none)
  | none => (dbStories, some (storiesCacheTTL now dbStories, dbStories))

/-! ## Chat broadcast (`BroadcastMessageToRoom`) -/

/-- A concrete websocket client id for witnesses. -/
def clientA : String := "client-a"

/-- Another concrete websocket client id for witnesses. -/
def clientB : String := "client-b"

/-- A `ChulbongConn` as the broadcast path sees it: the bounded `Send`
channel is a queue with a capacity. -/
structure ChulbongConn where
  clientID : String
  sendCap : Nat
  send : List (List UInt8)
deriving DecidableEq, Repr

/-- The non-blocking `select { case conn.Send <- payload: default: }`: the
payload is enqueued when the channel has room and dropped for this
connection otherwise. -/
def enqueueNonBlocking (payload : List UInt8) (conn : ChulbongConn) : ChulbongConn :=
  if conn.send.length < conn.sendCap then
    { conn with send := conn.send ++ [payload] }
  else conn

/-- `ChatService.BroadcastMessageToRoom`: a missing room is a no-op;
otherwise the message is serialized once (`createMessagePayload`, the
`payload` argument) and that same byte string is offered to every connection
of the room non-blockingly. -/
def BroadcastMessageToRoom (room : Option (List ChulbongConn))
    (payload : List UInt8) : Option (List ChulbongConn) :=
  match room with
  | none => none
  | some conns => some (conns.map (enqueueNonBlocking payload))

/-- The §3 data-model invariant: at most one active story per
(user, marker). -/
def AtMostOneActive (stories : List Story) (now : Int) : Prop :=
  ∀ m u, (stories.countP fun s =>
    s.markerID == m && s.userID == u && decide (now < s.expiresAt)) ≤ 1

/-- `"thumbsup"`, the reaction type accepted by the handler. -/
def thumbsupStr : String := "thumbsup"

/-- A 31-byte caption: `"a"` followed by ten copies of the 3-byte UTF-8
encoding of the Korean syllable U+AC00. -/
def koreanCaption : List UInt8 :=
  97 :: (List.replicate 10 [(234 : UInt8), 176, 128]).flatten

/-! ## Marker creation and the nearby guard
(`services/comment_service.go`: `CreateMarker`, `IsMarkerNearby`,
`distance`).  The Go code computes with `float64` trigonometry; the
embedding uses the exact real-valued counterparts. -/

/-- A row of the `Markers` table (the columns the nearby guard reads). -/
structure Marker where
  latitude : ℝ
  longitude : ℝ

/-- Go's `math.Atan2 y x` as a real function (quadrant-correcting
arctangent). -/
noncomputable def atan2 (y x : ℝ) : ℝ :=
  if 0 < x then Real.arctan (y / x)
  else if x < 0 ∧ 0 ≤ y then Real.arctan (y / x) + Real.pi
  else if x < 0 ∧ y < 0 then Real.arctan (y / x) - Real.pi
  else if x = 0 ∧ 0 < y then Real.pi / 2
  else if x = 0 ∧ y < 0 then -(Real.pi / 2)
  else 0

/-- `services.distance`: the haversine distance in meters, exactly as the
source computes it (Earth radius 6371000 m). -/
noncomputable def distance (lat1 long1 lat2 long2 : ℝ) : ℝ :=
  let deltaLat := (lat2 - lat1) * (Real.pi / 180)
  let deltaLong := (long2 - long1) * (Real.pi / 180)
  let a := Real.sin (deltaLat / 2) * Real.sin (deltaLat / 2) +
    Real.cos (lat1 * (Real.pi / 180)) * Real.cos (lat2 * (Real.pi / 180)) *
      (Real.sin (deltaLong / 2) * Real.sin (deltaLong / 2))
  let c := 2 * atan2 (Real.sqrt a) (Real.sqrt (1 - a))
  6371000 * c

/-- `services.IsMarkerNearby`: the loop returns true iff some marker of the
table satisfies `math.Abs(distance(..)-5) < 1`. -/
def IsMarkerNearby (markers : List Marker) (lat long : ℝ) : Prop :=
  ∃ m ∈ markers, |distance lat long m.latitude m.longitude - 5| < 1

/-- The observable outcome of `services.CreateMarker`: the conflict error
("a marker is already nearby") or the committed `Markers` table. -/
inductive CreateMarkerOutcome where
  | conflictNearby
  | inserted (markers : List Marker)

/-- `services.CreateMarker` as a step relation on the `Markers` table: the
nearby check runs first and aborts with the conflict error; otherwise the
new row is inserted and the transaction commits. -/
inductive CreateMarker (db : List Marker) (lat long : ℝ) :
    CreateMarkerOutcome → Prop where
  | conflict : IsMarkerNearby db lat long → CreateMarker db lat long .conflictNearby
  | insert : ¬ IsMarkerNearby db lat long →
      CreateMarker db lat long (.inserted (db ++ [⟨lat, long⟩]))

/-! ## Theorems -/

/-- The haversine formula evaluated at two identical coordinates: both
half-angle sines vanish, so `a = 0`, `atan2 0 1 = 0` and the distance is 0. -/
lemma distance_self (lat long : ℝ) : distance lat long lat long = 0 := by
  unfold distance atan2
  simp

/-- C1: the claim says a `createMarker` call with an existing marker within
5 m must fail with the conflict-nearby error and insert nothing.  The code
tests `math.Abs(distance-5) < 1`, which only fires for distances in the open
band (4 m, 6 m): with an existing marker at exactly the candidate
coordinates (haversine distance 0 m, surely within 5 m), `IsMarkerNearby`
returns false and `CreateMarker` inserts the duplicate row. -/
theorem createMarker_inserts_despite_marker_within_5m :
    distance 37.5 127 37.5 127 = 0 ∧
    ¬ IsMarkerNearby [⟨37.5, 127⟩] 37.5 127 ∧
    CreateMarker [⟨37.5, 127⟩] 37.5 127
      (.inserted ([⟨37.5, 127⟩] ++ [⟨37.5, 127⟩])) := by
  have h0 : distance 37.5 127 37.5 127 = 0 := distance_self 37.5 127
  have hn : ¬ IsMarkerNearby [⟨37.5, 127⟩] 37.5 127 := by
    rintro ⟨m, hm, hd⟩
    rw [List.mem_singleton] at hm
    subst hm
    rw [h0] at hd
    norm_num at hd
  exact ⟨h0, hn, CreateMarker.insert hn⟩

/-- C2: the claim says a duplicate `(story, user)` report returns the
already-reported error with HTTP 409.  The service does return the
already-reported error, but it rewrites the MySQL 1062 error into the text
`"you have already reported this story"`, while the handler looks for the
substring `"duplicate entry"` in the error text; the match never succeeds,
so the endpoint answers 500, not the documented 409. -/
theorem reportStory_duplicate_returns_500 :
    ReportStory [⟨1, 7, 3, [], 1000⟩] [⟨1, 2, dupReportMsg⟩] 1 2 dupReportMsg =
      Except.error (StoryErr.errMsg dupReportMsg) ∧
    strHasSub dupEntryPat.toList dupReportMsg.toList = false ∧
    HandleReportStory [⟨1, 7, 3, [], 1000⟩] [⟨1, 2, dupReportMsg⟩] 1 2 dupReportMsg = 500 := by
  refine ⟨rfl, by decide, by decide⟩

/-- If every decodable page that contains the story can be re-stored, the
scan loop of `UpdateStoryReactionInCache` succeeds. -/
lemma updateCachePages_ok (sid : Nat) (tu td : Int) (ul : Bool) :
    ∀ pages : List CachePage,
      (∀ p ∈ pages, p.decodeOk = true →
        (patchStories sid tu td ul p.stories).2 = true → p.setOk = true) →
      ∃ r, updateCachePages sid tu td ul pages = Except.ok r := by
  intro pages
  induction pages with
  | nil => exact fun _ => ⟨[], rfl⟩
  | cons p rest ih =>
    intro h
    obtain ⟨r, hr⟩ := ih fun q hq => h q (List.mem_cons_of_mem p hq)
    by_cases hdec : p.decodeOk = true
    · by_cases hmod : (patchStories sid tu td ul p.stories).2 = true
      · have hset := h p (List.mem_cons_self p rest) hdec hmod
        refine ⟨{ p with stories := (patchStories sid tu td ul p.stories).1, ttl := tenMinutes } :: r, ?_⟩
        simp [updateCachePages, hdec, hmod, hset, hr, Except.map]
      · simp only [Bool.not_eq_true] at hmod
        exact ⟨p :: r, by simp [updateCachePages, hdec, hmod, hr, Except.map]⟩
    · simp only [Bool.not_eq_true] at hdec
      exact ⟨p :: r, by simp [updateCachePages, hdec, hr, Except.map]⟩

/-- If some decodable page contains the story but cannot be re-stored, the
scan loop of `UpdateStoryReactionInCache` returns the `SetCacheEntry`
error: earlier pages are skipped or re-stored and the loop aborts at the
failing store. -/
lemma updateCachePages_error (sid : Nat) (tu td : Int) (ul : Bool) :
    ∀ pages : List CachePage,
      (∃ p ∈ pages, p.decodeOk = true ∧
        (patchStories sid tu td ul p.stories).2 = true ∧ p.setOk = false) →
      updateCachePages sid tu td ul pages = Except.error () := by
  intro pages
  induction pages with
  | nil =>
    rintro ⟨p, hp, _⟩
    simp at hp
  | cons p rest ih =>
    rintro ⟨q, hq, hdec, hmod, hset⟩
    rcases List.mem_cons.mp hq with rfl | hq2
    · simp [updateCachePages, hdec, hmod, hset]
    · have herr := ih ⟨q, hq2, hdec, hmod, hset⟩
      by_cases hd : p.decodeOk = true
      · by_cases hm : (patchStories sid tu td ul p.stories).2 = true
        · by_cases hs : p.setOk = true
          · simp [updateCachePages, hd, hm, hs, herr, Except.map]
          · simp only [Bool.not_eq_true] at hs
            simp [updateCachePages, hd, hm, hs]
        · simp only [Bool.not_eq_true] at hm
          simp [updateCachePages, hd, hm, herr, Except.map]
      · simp only [Bool.not_eq_true] at hd
        simp [updateCachePages, hd, herr, Except.map]

/-- C3, counterexample: the claim says a cache-layer error never fails a
reaction request whose DB work succeeded.  With the transaction committed
(`committed = true`) and the Redis `SCAN` failing, `AddReaction` returns the
scan error and the handler answers 500. -/
theorem addReaction_scan_error_fails_request :
    (AddReaction true false [] 1 1 0 true).committed = true ∧
    (AddReaction true false [] 1 1 0 true).result = Except.error () ∧
    HandleAddReaction thumbsupStr true false [] 1 1 0 true = 500 :=
  ⟨rfl, rfl, by decide⟩

/-- C3, amended: the DB transaction always commits once the DB work is done;
a failing cache scan is returned and turns the request into a 500, and so is
a failing re-store (`SetCacheEntry`) of a decodable page that contains the
story, while decode failures on individual cached pages are skipped and —
provided scan and the needed re-stores succeed — the request still answers
200. -/
theorem addReaction_cache_error_semantics (scanOk : Bool) (pages : List CachePage)
    (sid : Nat) (tu td : Int) (ul : Bool) :
    (AddReaction true scanOk pages sid tu td ul).committed = true ∧
    (scanOk = false →
      (AddReaction true scanOk pages sid tu td ul).result = Except.error () ∧
      HandleAddReaction thumbsupStr true scanOk pages sid tu td ul = 500) ∧
    (scanOk = true →
      (∀ p ∈ pages, p.decodeOk = true →
        (patchStories sid tu td ul p.stories).2 = true → p.setOk = true) →
      ∃ pages2,
        (AddReaction true scanOk pages sid tu td ul).result = Except.ok pages2 ∧
        HandleAddReaction thumbsupStr true scanOk pages sid tu td ul = 200) ∧
    (scanOk = true →
      (∃ p ∈ pages, p.decodeOk = true ∧
        (patchStories sid tu td ul p.stories).2 = true ∧ p.setOk = false) →
      (AddReaction true scanOk pages sid tu td ul).result = Except.error () ∧
      HandleAddReaction thumbsupStr true scanOk pages sid tu td ul = 500) := by
  refine ⟨rfl, ?_, ?_, ?_⟩
  · rintro rfl
    exact ⟨rfl, by
      simp [HandleAddReaction, AddReaction, UpdateStoryReactionInCache, thumbsupStr]⟩
  · rintro rfl hset
    obtain ⟨r, hr⟩ := updateCachePages_ok sid tu td ul pages hset
    refine ⟨r, ?_, ?_⟩
    · simp [AddReaction, UpdateStoryReactionInCache, hr]
    · simp [HandleAddReaction, AddReaction, UpdateStoryReactionInCache, hr, thumbsupStr]
  · rintro rfl hbad
    have herr := updateCachePages_error sid tu td ul pages hbad
    refine ⟨?_, ?_⟩
    · simp [AddReaction, UpdateStoryReactionInCache, herr]
    · simp [HandleAddReaction, AddReaction, UpdateStoryReactionInCache, herr, thumbsupStr]

/-- C3 witness: the amended behavior at concrete inputs — a succeeding scan
over an empty cache leaves the request a 200, while a page containing the
story whose re-store fails (`setOk = false`) turns the committed request
into a 500. -/
theorem addReaction_cache_error_semantics_witness :
    (∃ pages2, (AddReaction true true [] 1 1 0 true).result = Except.ok pages2 ∧
      HandleAddReaction thumbsupStr true true [] 1 1 0 true = 200) ∧
    ((AddReaction true true [⟨0, 120, true, false, [⟨1, [], 60, 0, 0, false⟩]⟩]
        1 1 0 true).result = Except.error () ∧
      HandleAddReaction thumbsupStr true true
        [⟨0, 120, true, false, [⟨1, [], 60, 0, 0, false⟩]⟩] 1 1 0 true = 500) :=
  ⟨(addReaction_cache_error_semantics true [] 1 1 0 true).2.2.1 rfl (by simp),
   (addReaction_cache_error_semantics true
      [⟨0, 120, true, false, [⟨1, [], 60, 0, 0, false⟩]⟩] 1 1 0 true).2.2.2 rfl
     ⟨⟨0, 120, true, false, [⟨1, [], 60, 0, 0, false⟩]⟩, by simp, rfl, by decide, rfl⟩⟩

/-- The `earliest` loop of `GetStories` computes a lower bound of the page's
`ExpiresAt` values that is either its seed or one of them. -/
lemma foldl_earliest_spec (l : List StoryEntry) (a : Int) :
    (l.foldl (fun e s => if s.expiresAt < e then s.expiresAt else e) a = a ∨
      l.foldl (fun e s => if s.expiresAt < e then s.expiresAt else e) a ∈
        l.map (·.expiresAt)) ∧
    l.foldl (fun e s => if s.expiresAt < e then s.expiresAt else e) a ≤ a ∧
    ∀ s ∈ l, l.foldl (fun e s => if s.expiresAt < e then s.expiresAt else e) a ≤
      s.expiresAt := by
  induction l generalizing a with
  | nil => simp
  | cons s t ih =>
    simp only [List.foldl_cons, List.map_cons, List.mem_cons]
    obtain ⟨hmem, hle, hall⟩ := ih (if s.expiresAt < a then s.expiresAt else a)
    have hle2 : (if s.expiresAt < a then s.expiresAt else a) ≤ a := by
      split <;> omega
    have hles : (if s.expiresAt < a then s.expiresAt else a) ≤ s.expiresAt := by
      split <;> omega
    refine ⟨?_, by omega, fun x hx => ?_⟩
    · rcases hmem with h | h
      · rw [h]
        split
        · exact Or.inr (Or.inl rfl)
        · exact Or.inl rfl
      · exact Or.inr (Or.inr h)
    · rcases hx with rfl | hx
      · omega
      · exact hall x hx

/-- C4, counterexample: the claim says the TTL of a non-empty page read from
the DB is clamped to a minimum of 5 minutes.  With one story expiring 60
seconds from now, the page is cached for 60 seconds, below the claimed
5-minute floor. -/
theorem getStories_ttl_not_clamped :
    (GetStories none [⟨1, [], 60, 0, 0, false⟩] 0).2 =
      some (60, [⟨1, [], 60, 0, 0, false⟩]) ∧
    (60 : Int) < fiveMinutes := by
  exact ⟨by decide, by decide⟩

/-- C4, amended: on a DB read, a non-empty page is cached with TTL equal to
the time until the minimum `ExpiresAt` of its entries whenever that duration
is positive, and with the 5-minute fallback only when it is non-positive; an
empty page is cached for exactly 5 minutes. -/
theorem getStories_ttl (now : Int) (dbStories : List StoryEntry) :
    (GetStories none dbStories now).1 = dbStories ∧
    (dbStories = [] → (GetStories none dbStories now).2 = some (fiveMinutes, dbStories)) ∧
    (dbStories ≠ [] → ∃ m, m ∈ dbStories.map (·.expiresAt) ∧
      (∀ s ∈ dbStories, m ≤ s.expiresAt) ∧
      (GetStories none dbStories now).2 =
        some (if m - now ≤ 0 then fiveMinutes else m - now, dbStories)) := by
  refine ⟨rfl, ?_, ?_⟩
  · rintro rfl
    rfl
  · intro hne
    cases dbStories with
    | nil => exact absurd rfl hne
    | cons s0 t =>
      obtain ⟨hmem, hle, hall⟩ := foldl_earliest_spec (s0 :: t) s0.expiresAt
      refine ⟨(s0 :: t).foldl (fun e s => if s.expiresAt < e then s.expiresAt else e)
        s0.expiresAt, ?_, hall, ?_⟩
      · rcases hmem with h | h
        · rw [h]
          exact List.mem_cons_self _ _
        · exact h
      · simp [GetStories, storiesCacheTTL]

/-- C4 witness: the amended TTL rule at a concrete one-entry page. -/
theorem getStories_ttl_witness :
    ∃ m, m ∈ ([⟨1, [], 60, 0, 0, false⟩] : List StoryEntry).map (·.expiresAt) ∧
      (∀ s ∈ ([⟨1, [], 60, 0, 0, false⟩] : List StoryEntry), m ≤ s.expiresAt) ∧
      (GetStories none [⟨1, [], 60, 0, 0, false⟩] 0).2 =
        some (if m - 0 ≤ 0 then fiveMinutes else m - 0, [⟨1, [], 60, 0, 0, false⟩]) :=
  (getStories_ttl 0 [⟨1, [], 60, 0, 0, false⟩]).2.2 (by decide)

/-- Index-wise description of the patch loop: entries before the first
match and after it are returned unchanged; the first entry with the story's
id gets the three-field overwrite; the modified flag is exactly "some entry
matches". -/
lemma patchStories_spec (sid : Nat) (tu td : Int) (ul : Bool) :
    ∀ l : List StoryEntry,
      (patchStories sid tu td ul l).1.length = l.length ∧
      ((patchStories sid tu td ul l).2 = l.any fun e => e.storyID == sid) ∧
      ∀ j : Nat, (patchStories sid tu td ul l).1[j]? =
        if ((l.take j).any fun e => e.storyID == sid) = true then l[j]?
        else (l[j]?).map fun e =>
          if e.storyID == sid then patchEntry tu td ul e else e := by
  intro l
  induction l with
  | nil => simp [patchStories]
  | cons e rest ih =>
    obtain ⟨ihlen, ihmod, ihidx⟩ := ih
    by_cases he : (e.storyID == sid) = true
    · have he2 : e.storyID = sid := by simpa using he
      refine ⟨by simp [patchStories, he], by simp [patchStories, he], ?_⟩
      intro j
      cases j with
      | zero => simp [patchStories, he, he2]
      | succ j => simp [patchStories, he, List.take_succ_cons]
    · simp only [Bool.not_eq_true] at he
      have he2 : ¬ e.storyID = sid := by simpa using he
      refine ⟨by simp [patchStories, he, ihlen], by simp [patchStories, he, ihmod], ?_⟩
      intro j
      cases j with
      | zero => simp [patchStories, he, he2]
      | succ j => simpa [patchStories, he, List.take_succ_cons] using ihidx j

/-- Inversion of one `Except.map` step of the scan loop. -/
lemma except_map_ok {α β : Type} (f : α → β) (x : Except Unit α) (y : β)
    (h : x.map f = Except.ok y) : ∃ z, x = Except.ok z ∧ y = f z := by
  cases x with
  | error e => simp [Except.map] at h
  | ok z => exact ⟨z, rfl, by simpa [Except.map] using h.symm⟩

/-- Index-wise description of a successful scan run: pages keep their order
and count; a decodable page containing the story is re-stored patched with
the fixed 10-minute TTL; every other page is untouched. -/
lemma updateCachePages_spec (sid : Nat) (tu td : Int) (ul : Bool) :
    ∀ (pages r : List CachePage),
      updateCachePages sid tu td ul pages = Except.ok r →
      r.length = pages.length ∧
      ∀ i : Nat, r[i]? = (pages[i]?).map fun p =>
        if (p.decodeOk && (patchStories sid tu td ul p.stories).2) = true then
          { p with stories := (patchStories sid tu td ul p.stories).1, ttl := tenMinutes }
        else p := by
  intro pages
  induction pages with
  | nil =>
    intro r hr
    simp only [updateCachePages] at hr
    cases hr
    exact ⟨rfl, fun i => by simp⟩
  | cons p rest ih =>
    intro r hr
    by_cases hdec : p.decodeOk = true
    · by_cases hmod : (patchStories sid tu td ul p.stories).2 = true
      · by_cases hset : p.setOk = true
        · simp only [updateCachePages, hdec, hmod, hset, Bool.not_true,
            Bool.false_eq_true, if_false, if_true] at hr
          obtain ⟨z, hz, rfl⟩ := except_map_ok _ _ _ hr
          obtain ⟨hlen, hidx⟩ := ih z hz
          refine ⟨by simp [hlen], ?_⟩
          intro i
          cases i with
          | zero => simp [hdec, hmod, hset]
          | succ i => simpa using hidx i
        · simp only [Bool.not_eq_true] at hset
          simp [updateCachePages, hdec, hmod, hset] at hr
      · simp only [Bool.not_eq_true] at hmod
        simp only [updateCachePages, hdec, hmod, Bool.not_true,
          Bool.false_eq_true, if_false, if_true] at hr
        obtain ⟨z, hz, rfl⟩ := except_map_ok _ _ _ hr
        obtain ⟨hlen, hidx⟩ := ih z hz
        refine ⟨by simp [hlen], ?_⟩
        intro i
        cases i with
        | zero => simp [hdec, hmod]
        | succ i => simpa using hidx i
    · simp only [Bool.not_eq_true] at hdec
      simp only [updateCachePages, hdec, Bool.not_false, if_true] at hr
      obtain ⟨z, hz, rfl⟩ := except_map_ok _ _ _ hr
      obtain ⟨hlen, hidx⟩ := ih z hz
      refine ⟨by simp [hlen], ?_⟩
      intro i
      cases i with
      | zero => simp [hdec]
      | succ i => simpa using hidx i

/-- C5, counterexample: the claim says a patched page is re-stored with the
same TTL horizon it had before.  A page with 120 seconds left containing the
story is re-stored by `SetCacheEntry(key, stories, time.Minute*10)` — a
fixed fresh 10-minute TTL, not the 120 seconds it had. -/
theorem updateCache_ttl_not_preserved :
    UpdateStoryReactionInCache true
        [⟨0, 120, true, true, [⟨1, [], 60, 0, 0, false⟩]⟩] 1 1 0 true =
      Except.ok [⟨0, 600, true, true, [⟨1, [], 60, 1, 0, true⟩]⟩] ∧
    tenMinutes ≠ (120 : Int) := by
  exact ⟨rfl, by decide⟩

/-- C5, amended: on a successful run every cached page keeps its position;
a decodable page containing the story is re-stored with exactly the
`patchStories` result and a fresh fixed 10-minute TTL (not its previous
horizon); every other page is untouched.  Within a patched list only the
first entry whose `StoryID` matches is replaced, by an entry that differs
only in `thumbsUp`, `thumbsDown` and `userLiked`; all other entries are
unchanged. -/
theorem updateCache_patches_single_entry_in_place (sid : Nat) (tu td : Int)
    (ul : Bool) (pages r : List CachePage)
    (h : UpdateStoryReactionInCache true pages sid tu td ul = Except.ok r) :
    (r.length = pages.length ∧
      ∀ i : Nat, r[i]? = (pages[i]?).map fun p =>
        if (p.decodeOk && (patchStories sid tu td ul p.stories).2) = true then
          { p with stories := (patchStories sid tu td ul p.stories).1, ttl := tenMinutes }
        else p) ∧
    (∀ l : List StoryEntry,
      (patchStories sid tu td ul l).1.length = l.length ∧
      ((patchStories sid tu td ul l).2 = l.any fun e => e.storyID == sid) ∧
      ∀ j : Nat, (patchStories sid tu td ul l).1[j]? =
        if ((l.take j).any fun e => e.storyID == sid) = true then l[j]?
        else (l[j]?).map fun e =>
          if e.storyID == sid then patchEntry tu td ul e else e) ∧
    (∀ e : StoryEntry, (patchEntry tu td ul e).storyID = e.storyID ∧
      (patchEntry tu td ul e).caption = e.caption ∧
      (patchEntry tu td ul e).expiresAt = e.expiresAt ∧
      (patchEntry tu td ul e).thumbsUp = tu ∧
      (patchEntry tu td ul e).thumbsDown = td ∧
      (patchEntry tu td ul e).userLiked = ul) := by
  refine ⟨?_, patchStories_spec sid tu td ul, ?_⟩
  · have h2 : updateCachePages sid tu td ul pages = Except.ok r := by
      simpa [UpdateStoryReactionInCache] using h
    exact updateCachePages_spec sid tu td ul pages r h2
  · intro e
    exact ⟨rfl, rfl, rfl, rfl, rfl, rfl⟩

/-- C5 witness: the in-place-patch description applied to a concrete
one-page cache. -/
theorem updateCache_patches_single_entry_witness :
    ([⟨0, 600, true, true, [⟨1, [], 60, 1, 0, true⟩]⟩] : List CachePage).length =
      ([⟨0, 120, true, true, [⟨1, [], 60, 0, 0, false⟩]⟩] : List CachePage).length :=
  (updateCache_patches_single_entry_in_place 1 1 0 true
    [⟨0, 120, true, true, [⟨1, [], 60, 0, 0, false⟩]⟩]
    [⟨0, 600, true, true, [⟨1, [], 60, 1, 0, true⟩]⟩] rfl).1.1

/-- The digit loop never shrinks its accumulator. -/
lemma parseDigits_ge : ∀ (l : List Char) (n m : Nat), parseDigits l n = some m → n ≤ m := by
  intro l
  induction l with
  | nil =>
    intro n m h
    simp only [parseDigits, Option.some.injEq] at h
    omega
  | cons c rest ih =>
    intro n m h
    simp only [parseDigits] at h
    split at h
    · exact absurd h (by simp)
    · split at h
      · exact absurd h (by simp)
      · have := ih _ _ h
        omega

/-- `parsePositiveInt` returns a positive value whenever its default is
positive: the parsed branch starts from a first digit in `'1'..'9'`. -/
lemma one_le_parsePositiveInt (b : List Char) (dflt : Nat) (h : 1 ≤ dflt) :
    1 ≤ parsePositiveInt b dflt := by
  match b with
  | [] => simpa [parsePositiveInt]
  | c :: rest =>
    simp only [parsePositiveInt]
    split
    · exact h
    · rename_i hc
      cases hp : parseDigits (c :: rest) 0 with
      | none => simpa [hp] using h
      | some n =>
        show 1 ≤ n
        simp only [parseDigits] at hp
        split at hp
        · exact absurd hp (by simp)
        · rename_i hc0
          push_neg at hc
          have hge : 49 ≤ c.toNat := by
            have := hc.1
            simpa [Char.lt_def] using this
          split at hp
          · exact absurd hp (by simp)
          · have hge2 := parseDigits_ge _ _ _ hp
            have h48 : Char.toNat '0' = 48 := rfl
            omega

/-- The handler's remainder bump equals the ceiling division
`(total + ps - 1) / ps`. -/
lemma ceil_div_eq (total ps : Nat) (hps : 1 ≤ ps) :
    total / ps + (if total % ps ≠ 0 then 1 else 0) = (total + ps - 1) / ps := by
  have h0 : 0 < ps := hps
  obtain ⟨q, r, hqr, hrlt⟩ : ∃ q r, total = ps * q + r ∧ r < ps :=
    ⟨total / ps, total % ps, (Nat.div_add_mod total ps).symm, Nat.mod_lt total h0⟩
  subst hqr
  rw [Nat.mul_add_div h0, Nat.div_eq_of_lt hrlt, Nat.mul_add_mod, Nat.mod_eq_of_lt hrlt]
  by_cases hr : r = 0
  · subst hr
    rw [if_neg (by simp)]
    have he : ps * q + 0 + ps - 1 = ps * q + (ps - 1) := by omega
    rw [he, Nat.mul_add_div h0, Nat.div_eq_of_lt (by omega)]
  · rw [if_pos hr]
    have he : ps * q + r + ps - 1 = ps * (q + 1) + (r - 1) := by
      have h2 : ps * (q + 1) = ps * q + ps := by ring
      omega
    rw [he, Nat.mul_add_div h0, Nat.div_eq_of_lt (by omega)]

/-- With the close-markers configuration (`defaultPageSize = 4`) the parsed
page size is positive. -/
lemma closeCfg_pageSize_pos (pageArg pageSizeArg : List Char) (pg : PaginationParams)
    (h : ParsePaginationParams closeMarkersCfg pageArg pageSizeArg = Except.ok pg) :
    1 ≤ pg.pageSize := by
  have h4 : 1 ≤ parsePositiveInt pageSizeArg 4 := one_le_parsePositiveInt _ _ (by omega)
  simp only [ParsePaginationParams, closeMarkersCfg, Except.ok.injEq] at h
  cases h
  simp only
  split_ifs <;> simp_all

/-- C6: for a close-markers request with `distance ≤ 50000` answered from
the database, the handler answers 200; `TotalPages` is the ceiling of
`total / pageSize`; and `CurrentPage` is the requested page clamped above by
`TotalPages` and below by 1 — in particular, when at least one marker exists
and the requested page exceeds `TotalPages`, `CurrentPage` equals
`TotalPages` and is positive. -/
theorem closeMarkers_current_page_clamped (distance : Int) (hdist : distance ≤ 50000)
    (pageArg pageSizeArg : List Char) (total : Nat) :
    ∃ pg, ParsePaginationParams closeMarkersCfg pageArg pageSizeArg = Except.ok pg ∧
      1 ≤ pg.pageSize ∧
      (HandleFindCloseMarkers distance pageArg pageSizeArg total true).status = 200 ∧
      (HandleFindCloseMarkers distance pageArg pageSizeArg total true).totalPages =
        (total + pg.pageSize - 1) / pg.pageSize ∧
      (HandleFindCloseMarkers distance pageArg pageSizeArg total true).currentPage =
        max 1 (min pg.page ((total + pg.pageSize - 1) / pg.pageSize)) ∧
      (1 ≤ total → (total + pg.pageSize - 1) / pg.pageSize < pg.page →
        (HandleFindCloseMarkers distance pageArg pageSizeArg total true).currentPage =
          (total + pg.pageSize - 1) / pg.pageSize ∧
        1 ≤ (HandleFindCloseMarkers distance pageArg pageSizeArg total true).currentPage) := by
  obtain ⟨pg, hok⟩ : ∃ pg,
      ParsePaginationParams closeMarkersCfg pageArg pageSizeArg = Except.ok pg := ⟨_, rfl⟩
  have hps := closeCfg_pageSize_pos pageArg pageSizeArg pg hok
  have hnd : ¬ distance > 50000 := not_lt.mpr hdist
  have hceil := ceil_div_eq total pg.pageSize hps
  have hH : HandleFindCloseMarkers distance pageArg pageSizeArg total true =
      ⟨200,
        (fun p1 => if p1 < 1 then 1 else p1)
          (if pg.page > (total + pg.pageSize - 1) / pg.pageSize then
            (total + pg.pageSize - 1) / pg.pageSize else pg.page),
        (total + pg.pageSize - 1) / pg.pageSize⟩ := by
    simp only [HandleFindCloseMarkers, if_neg hnd, hok, Bool.not_true, Bool.false_eq_true,
      if_false, hceil]
  rw [hH]
  have htp1 : 1 ≤ total → 1 ≤ (total + pg.pageSize - 1) / pg.pageSize := by
    intro ht
    rw [Nat.one_le_div_iff hps]
    omega
  refine ⟨pg, hok, hps, rfl, rfl, ?_, ?_⟩
  · simp only
    split_ifs <;> omega
  · intro ht hgt
    have := htp1 ht
    simp only
    constructor <;> (split_ifs <;> omega)

/-- C6 witness: requesting page 999 of 10 markers at page size 4 yields
current page `totalPages = 3`. -/
theorem closeMarkers_current_page_witness :
    ∃ pg, ParsePaginationParams closeMarkersCfg ['9', '9', '9'] ['4'] = Except.ok pg ∧
      1 ≤ pg.pageSize ∧
      (HandleFindCloseMarkers 500 ['9', '9', '9'] ['4'] 10 true).status = 200 ∧
      (HandleFindCloseMarkers 500 ['9', '9', '9'] ['4'] 10 true).totalPages =
        (10 + pg.pageSize - 1) / pg.pageSize ∧
      (HandleFindCloseMarkers 500 ['9', '9', '9'] ['4'] 10 true).currentPage =
        max 1 (min pg.page ((10 + pg.pageSize - 1) / pg.pageSize)) ∧
      (1 ≤ 10 → (10 + pg.pageSize - 1) / pg.pageSize < pg.page →
        (HandleFindCloseMarkers 500 ['9', '9', '9'] ['4'] 10 true).currentPage =
          (10 + pg.pageSize - 1) / pg.pageSize ∧
        1 ≤ (HandleFindCloseMarkers 500 ['9', '9', '9'] ['4'] 10 true).currentPage) :=
  closeMarkers_current_page_clamped 500 (by decide) ['9', '9', '9'] ['4'] 10

/-- C9, counterexample: the claim says malformed or overflowing pagination
parameters yield HTTP 400.  A non-numeric `page=abc` parses to the default
page 1, and `page = pageSize = math.MaxInt` (whose offset product would
overflow) is silently reverted to the defaults; in both cases the endpoint
answers 200, never 400. -/
theorem pagination_malformed_never_400 :
    parsePositiveInt ['a', 'b', 'c'] 1 = 1 ∧
    HandleFindCloseMarkers 500 ['a', 'b', 'c'] [] 10 true = ⟨200, 1, 3⟩ ∧
    parsePositiveInt maxIntDigits 1 = maxGoInt ∧
    ParsePaginationParams closeMarkersCfg maxIntDigits maxIntDigits =
      Except.ok ⟨1, 4, 0⟩ ∧
    HandleFindCloseMarkers 500 maxIntDigits maxIntDigits 10 true = ⟨200, 1, 3⟩ := by
  exact ⟨by decide, by decide, by decide, rfl, by decide⟩

/-- C9, amended: `ParsePaginationParams` returns a nil error on every input
— malformed and overflowing values are replaced by the configured defaults —
so the close-markers endpoint never answers 400 for pagination and proceeds
to 200 on the database path. -/
theorem parsePagination_never_errors (cfg : PaginationConfig)
    (pageArg pageSizeArg : List Char) (distance : Int) (total : Nat)
    (hdist : distance ≤ 50000) :
    (∃ pg, ParsePaginationParams cfg pageArg pageSizeArg = Except.ok pg) ∧
    (HandleFindCloseMarkers distance pageArg pageSizeArg total true).status = 200 := by
  have hnd : ¬ distance > 50000 := not_lt.mpr hdist
  refine ⟨⟨_, rfl⟩, ?_⟩
  obtain ⟨pg, hok⟩ : ∃ pg,
      ParsePaginationParams closeMarkersCfg pageArg pageSizeArg = Except.ok pg := ⟨_, rfl⟩
  simp [HandleFindCloseMarkers, hnd, hok]

/-- C9 witness: the amended statement at the malformed input `page=abc`. -/
theorem parsePagination_never_errors_witness :
    (∃ pg, ParsePaginationParams closeMarkersCfg ['a', 'b', 'c'] [] = Except.ok pg) ∧
    (HandleFindCloseMarkers 500 ['a', 'b', 'c'] [] 10 true).status = 200 :=
  parsePagination_never_errors closeMarkersCfg ['a', 'b', 'c'] [] 500 10 (by decide)

/-- C7: assuming the marker exists, a user who already has an active story
on it gets `ErrAlreadyStoryPost` (HTTP 409 from the handler) and nothing is
inserted; otherwise the inserted story expires exactly 24 hours after
creation and the at-most-one-active-story-per-(user, marker) invariant is
preserved. -/
theorem addStory_unique_active_story (markers : List (Nat × String))
    (stories : List Story) (markerID userID : Nat) (caption : List UInt8)
    (now : Int) (newID : Nat) (photoOk : Bool)
    (hm : (markers.find? fun m => m.1 == markerID).isSome = true)
    (hinv : AtMostOneActive stories now) :
    (hasActiveStory stories markerID userID now = true →
      AddStory markers stories markerID userID caption now newID photoOk =
        Except.error StoryErr.alreadyStoryPost ∧
      ∀ bad rawCaption,
        HandleAddStory bad markers stories markerID userID rawCaption true now newID
          photoOk = (409, stories)) ∧
    (hasActiveStory stories markerID userID now = false → photoOk = true →
      AddStory markers stories markerID userID caption now newID photoOk =
        Except.ok (stories ++ [⟨newID, markerID, userID, caption, now + hours24⟩]) ∧
      AtMostOneActive (stories ++ [⟨newID, markerID, userID, caption, now + hours24⟩])
        now) := by
  obtain ⟨m0, hm2⟩ := Option.isSome_iff_exists.mp hm
  constructor
  · intro hactive
    refine ⟨by simp [AddStory, hm2, hactive], ?_⟩
    intro bad rawCaption
    simp [HandleAddStory, AddStory, hm2, hactive]
  · intro hactive hph
    refine ⟨by simp [AddStory, hm2, hactive, hph], ?_⟩
    intro m u
    rw [List.countP_append]
    simp only [hasActiveStory] at hactive
    have hall := List.any_eq_false.mp hactive
    by_cases hmu : m = markerID ∧ u = userID
    · obtain ⟨rfl, rfl⟩ := hmu
      have h0 : (stories.countP fun s =>
          s.markerID == m && s.userID == u && decide (now < s.expiresAt)) = 0 := by
        rw [List.countP_eq_zero]
        exact hall
      have h1 : (List.countP (fun s : Story =>
          s.markerID == m && s.userID == u && decide (now < s.expiresAt))
          [⟨newID, m, u, caption, now + hours24⟩]) ≤ 1 :=
        le_trans (List.countP_le_length _) (by simp)
      omega
    · have h1 : (List.countP (fun s : Story =>
          s.markerID == m && s.userID == u && decide (now < s.expiresAt))
          [⟨newID, markerID, userID, caption, now + hours24⟩]) = 0 := by
        simp only [List.countP_cons, List.countP_nil, Nat.zero_add]
        by_cases hm3 : markerID = m
        · by_cases hu3 : userID = u
          · exact absurd ⟨hm3.symm, hu3.symm⟩ hmu
          · simp [hu3]
        · simp [hm3]
      have h2 := hinv m u
      omega

/-- C7 witness: the preservation branch at a concrete empty table. -/
theorem addStory_unique_active_story_witness :
    AddStory [(1, dupEntryPat)] [] 1 2 [] 0 5 true =
      Except.ok [⟨5, 1, 2, [], 0 + hours24⟩] ∧
    AtMostOneActive [⟨5, 1, 2, [], 0 + hours24⟩] 0 :=
  (addStory_unique_active_story [(1, dupEntryPat)] [] 1 2 [] 0 5 true (by decide)
    (fun m u => by simp)).2 rfl rfl

/-- C8: a broadcast to a room offers one identical serialized payload to
every connection with non-blocking semantics: a connection with room in its
bounded send channel receives the payload appended (preserving enqueue
order); a full connection has it dropped and is left untouched; and the
entry each connection receives is independent of every other connection's
state — replacing any other connection by an arbitrary one (e.g. one with a
full channel) does not change what this connection receives. -/
theorem broadcast_nonblocking_independent (conns : List ChulbongConn)
    (payload : List UInt8) (i : Nat) :
    ∃ out, BroadcastMessageToRoom (some conns) payload = some out ∧
      out.length = conns.length ∧
      ∀ c, conns[i]? = some c →
        ((c.send.length < c.sendCap →
            out[i]? = some { c with send := c.send ++ [payload] }) ∧
         (¬ c.send.length < c.sendCap → out[i]? = some c) ∧
         (∀ j c2, j ≠ i → ∀ out2,
            BroadcastMessageToRoom (some (conns.set j c2)) payload = some out2 →
            out2[i]? = out[i]?)) := by
  refine ⟨conns.map (enqueueNonBlocking payload), rfl, by simp, ?_⟩
  intro c hc
  have hmap : (conns.map (enqueueNonBlocking payload))[i]? =
      some (enqueueNonBlocking payload c) := by
    rw [List.getElem?_map, hc]
    rfl
  refine ⟨?_, ?_, ?_⟩
  · intro hlt
    rw [hmap]
    simp [enqueueNonBlocking, hlt]
  · intro hge
    rw [hmap]
    simp [enqueueNonBlocking, hge]
  · intro j c2 hji out2 hout2
    have hsh : out2 = (conns.set j c2).map (enqueueNonBlocking payload) := by
      simpa [BroadcastMessageToRoom] using hout2.symm
    subst hsh
    rw [List.getElem?_map, List.getElem?_map, List.getElem?_set_ne hji]

/-- C8 witness: a two-client room where the first client's channel is full,
queried at the second client. -/
theorem broadcast_nonblocking_witness :
    ∃ out, BroadcastMessageToRoom
        (some [⟨clientA, 1, [[0]]⟩, ⟨clientB, 2, []⟩]) [1] = some out ∧
      out.length = ([⟨clientA, 1, [[0]]⟩, ⟨clientB, 2, []⟩] : List ChulbongConn).length ∧
      ∀ c, ([⟨clientA, 1, [[0]]⟩, ⟨clientB, 2, []⟩] : List ChulbongConn)[1]? = some c →
        ((c.send.length < c.sendCap →
            out[1]? = some { c with send := c.send ++ [[1]] }) ∧
         (¬ c.send.length < c.sendCap → out[1]? = some c) ∧
         (∀ j c2, j ≠ 1 → ∀ out2,
            BroadcastMessageToRoom
              (some (([⟨clientA, 1, [[0]]⟩, ⟨clientB, 2, []⟩] : List ChulbongConn).set j c2))
              [1] = some out2 →
            out2[1]? = out[1]?)) :=
  broadcast_nonblocking_independent [⟨clientA, 1, [[0]]⟩, ⟨clientB, 2, []⟩] [1] 1

/-- C10: an add-story request truncates an over-long caption to its first 30
bytes (a byte-level cut, so a multi-byte UTF-8 character can be split in the
middle) instead of rejecting it, then replaces bad words with asterisks, and
the resulting byte string is exactly the caption the inserted story row
carries (status 201). -/
theorem addStory_caption_truncated_filtered (bad : List (List UInt8))
    (markers : List (Nat × String)) (stories : List Story) (markerID userID : Nat)
    (rawCaption : List UInt8) (now : Int) (newID : Nat)
    (hm : (markers.find? fun m => m.1 == markerID).isSome = true)
    (hactive : hasActiveStory stories markerID userID now = false) :
    HandleAddStory bad markers stories markerID userID rawCaption true now newID true =
      (201, stories ++ [⟨newID, markerID, userID,
        replaceBadWords bad (truncateCaption rawCaption), now + hours24⟩]) ∧
    (30 < rawCaption.length → truncateCaption rawCaption = rawCaption.take 30) := by
  obtain ⟨m0, hm2⟩ := Option.isSome_iff_exists.mp hm
  refine ⟨?_, ?_⟩
  · simp [HandleAddStory, AddStory, hm2, hactive]
  · intro h30
    simp [truncateCaption, h30]

/-- C10 witness: a 31-byte caption (`"a"` + ten Korean syllables) is cut to
30 bytes, ending on a UTF-8 continuation byte — the last syllable is split —
and is stored as-is (no bad words configured). -/
theorem addStory_caption_truncated_witness :
    HandleAddStory [] [(1, dupEntryPat)] [] 1 2 koreanCaption true 0 5 true =
      (201, [⟨5, 1, 2, replaceBadWords [] (truncateCaption koreanCaption), 0 + hours24⟩]) ∧
    (truncateCaption koreanCaption).length = 30 ∧
    truncateCaption koreanCaption = koreanCaption.take 30 ∧
    128 ≤ ((truncateCaption koreanCaption).getLastD 0).toNat ∧
    ((truncateCaption koreanCaption).getLastD 0).toNat < 192 := by
  have h := addStory_caption_truncated_filtered [] [(1, dupEntryPat)] [] 1 2
    koreanCaption 0 5 (by decide) rfl
  exact ⟨h.1, by decide, h.2 (by decide), by decide, by decide⟩

end KPullup
